import Mathlib

/-!
Shallow embedding of the `aistudio-copilot-sample` repository
(`src/run.py` and `src/copilot_langchain/chat.py`).

Python values that the code manipulates as JSON-like dicts/lists are
modelled by the `Json` inductive; `os.environ` is modelled by an
association list `Env`; Python exceptions (`KeyError`, `IndexError`,
`TypeError`, `NameError`) are modelled by the `Err` inductive and
fallible code returns `Except Err _`.  External collaborators (the
hosted retrieval-augmented chain `RetrievalQA`, `json.loads`,
`AIClient`, the evaluation service) are abstracted as function
parameters; everything the repository's own code does (field access,
defaulting, environment mutation, dispatch) is embedded faithfully.
-/

/-- JSON-like Python values (dicts, lists, strings, numbers, booleans, None). -/
inductive Json where
  | null : Json
  | bool (b : Bool) : Json
  | num (q : ℚ) : Json
  | str (s : String) : Json
  | arr (xs : List Json) : Json
  | obj (kvs : List (String × Json)) : Json
deriving Repr

/-- Python exceptions that the repository's own code can raise. -/
inductive Err where
  | keyError (k : String) : Err
  | indexError : Err
  | typeError : Err
  | nameError (n : String) : Err
deriving Repr, DecidableEq

/-- A chat message `{"role": ..., "content": ...}` as used by `run.py`
and read by `chat_completion` (`messages[-1]["content"]`). -/
structure Message where
  role : String
  content : String
deriving Repr, DecidableEq

/-- `os.environ`, modelled as an association list of variable/value pairs. -/
abbrev Env : Type := List (String × String)

/-- Reading `os.environ.get(k)`: the first binding of `k`, if any. -/
def Env.get? (e : Env) (k : String) : Option String :=
  match e with
  | [] => none
  | (k', v) :: rest => if k' = k then some v else Env.get? rest k

/-- Reading `os.environ[k]`: raises `KeyError` when the variable is absent. -/
def Env.getItem (e : Env) (k : String) : Except Err String :=
  match e.get? k with
  | some v => Except.ok v
  | none => Except.error (Err.keyError k)

/-- Writing `os.environ[k] = v`: overwrite the existing binding or append. -/
def Env.set (e : Env) (k v : String) : Env :=
  match e with
  | [] => [(k, v)]
  | (k', v') :: rest =>
      if k' = k then (k, v) :: rest else (k', v') :: Env.set rest k v

theorem Env.get_set_self (e : Env) (k v : String) :
    (e.set k v).get? k = some v := by
  induction e with
  | nil => simp [Env.set, Env.get?]
  | cons p rest ih =>
      obtain ⟨k', v'⟩ := p
      by_cases h : k' = k
      · simp [Env.set, Env.get?, h]
      · simp [Env.set, Env.get?, h, ih]

theorem Env.get_set_other (e : Env) (k v k' : String) (h : k' ≠ k) :
    (e.set k v).get? k' = e.get? k' := by
  have h2 : ¬(k = k') := fun hh => h hh.symm
  induction e with
  | nil => simp [Env.set, Env.get?, h2]
  | cons p rest ih =>
      obtain ⟨k₀, v₀⟩ := p
      by_cases h0 : k₀ = k
      · subst h0
        simp [Env.set, Env.get?, h2, fun hh : k₀ = k' => h2 hh]
      · simp only [Env.set, Env.get?, h0, if_neg h0]
        by_cases h1 : k₀ = k'
        · simp [Env.get?, h1]
        · simp [Env.get?, h1, ih]

/-- Python dict item access `d[k]` on a JSON value: `KeyError` for a
missing key of a dict, `TypeError` when the value is not a dict
(e.g. subscripting a string with a string key). -/
def Json.index (j : Json) (k : String) : Except Err Json :=
  match j with
  | Json.obj kvs =>
      match kvs.find? (fun p => p.1 = k) with
      | some p => Except.ok p.2
      | none => Except.error (Err.keyError k)
  | _ => Except.error Err.typeError

/-- Python list subscript `l[i]` on a JSON value: `IndexError` out of
range, `TypeError` when the value is not a list. -/
def Json.indexNat (j : Json) (i : Nat) : Except Err Json :=
  match j with
  | Json.arr xs =>
      match xs.get? i with
      | some x => Except.ok x
      | none => Except.error Err.indexError
  | _ => Except.error Err.typeError

/-- Whether a JSON record carries a field named `k`. -/
def Json.hasKey (j : Json) (k : String) : Bool :=
  (j.index k).isOk

/-! ## `src/copilot_langchain/chat.py` -/

/-- `setup_credentials` (chat.py lines 12-22): reads the four
`openai.*` configuration variables from the environment (each read can
raise `KeyError`), then copies `AZURE_AI_SEARCH_ENDPOINT` into
`AZURE_COGNITIVE_SEARCH_TARGET` and `AZURE_AI_SEARCH_KEY` into
`AZURE_COGNITIVE_SEARCH_KEY`, mutating `os.environ`.  The assignments
to the `openai` module's attributes are module state, not environment
variables, so only their environment reads are modelled. -/
def setup_credentials (env : Env) : Except Err Env :=
  match env.getItem "OPENAI_API_TYPE" with
  | Except.error e => Except.error e
  | Except.ok _ =>
  match env.getItem "OPENAI_API_KEY" with
  | Except.error e => Except.error e
  | Except.ok _ =>
  match env.getItem "OPENAI_API_VERSION" with
  | Except.error e => Except.error e
  | Except.ok _ =>
  match env.getItem "OPENAI_API_BASE" with
  | Except.error e => Except.error e
  | Except.ok _ =>
  match env.getItem "AZURE_AI_SEARCH_ENDPOINT" with
  | Except.error e => Except.error e
  | Except.ok target =>
  let env1 := env.set "AZURE_COGNITIVE_SEARCH_TARGET" target
  match env1.getItem "AZURE_AI_SEARCH_KEY" with
  | Except.error e => Except.error e
  | Except.ok key => Except.ok (env1.set "AZURE_COGNITIVE_SEARCH_KEY" key)

/-- The default temperature `0.7` passed to `AzureChatOpenAI` when the
`context` mapping has no `temperature` key (chat.py line 31). -/
def defaultTemperature : Json := Json.num (7 / 10)

/-- The configuration handed to `AzureChatOpenAI` (chat.py lines 28-32). -/
structure LLMConfig where
  deployment_name : String
  model_name : String
  temperature : Json
deriving Repr

/-- Python `dict.get(k, default)` on the `context` mapping. -/
def ctxGet (context : List (String × Json)) (k : String) : Option Json :=
  (context.find? (fun p => p.1 = k)).map (fun p => p.2)

/-- Construction of the `AzureChatOpenAI` model (chat.py lines 28-32):
deployment and model names come from the environment (raising
`KeyError` when absent), the temperature from
`context.get('temperature', 0.7)`. -/
def buildLLM (env : Env) (context : List (String × Json)) :
    Except Err LLMConfig :=
  match env.getItem "AZURE_OPENAI_CHAT_DEPLOYMENT" with
  | Except.error e => Except.error e
  | Except.ok dep =>
  match env.getItem "AZURE_OPENAI_CHAT_MODEL" with
  | Except.error e => Except.error e
  | Except.ok mdl =>
      Except.ok ⟨dep, mdl, (ctxGet context "temperature").getD defaultTemperature⟩

/-- The fixed prompt template string of chat.py (lines 34-50). -/
def template : String :=
  "\n    System:\n    You are an AI assistant helping users with queries related to outdoor outdooor/camping gear and clothing.\n    Use the following pieces of context to answer the questions about outdoor/camping gear and clothing as completely, correctly, and concisely as possible.\n    If the question is not related to outdoor/camping gear and clothing, just say Sorry, I only can answer question related to outdoor/camping gear and clothing. So how can I help? Don\x27t try to make up an answer.\n    If the question is related to outdoor/camping gear and clothing but vague ask for clarifying questions.\n    Do not add documentation reference in the response.\n\n    {context}\n\n    ---\n\n    Question: {question}\n\n    Answer:\"\n    "

/-- `chat_completion` (chat.py lines 24-74).  The hosted
retrieval-augmented chain (`AIClient`, `MLIndex`, `RetrievalQA`) is
abstracted by the `pipeline` parameter, which receives the model
configuration, the prompt template and the question and produces the
chain's `result` string.  The function reads `messages[-1]["content"]`
(raising `IndexError` on an empty conversation), builds the model
configuration, runs `setup_credentials` (mutating the environment) and
returns the answer string together with the final environment.  The
`stream` and `session_state` parameters are accepted but never read,
exactly as in the source. -/
def chat_completion (pipeline : LLMConfig → String → String → String)
    (messages : List Message) (stream : Bool) (session_state : Option Json)
    (context : List (String × Json)) (env : Env) :
    Except Err (String × Env) :=
  match messages.getLast? with
  | none => Except.error Err.indexError
  | some last =>
      match buildLLM env context with
      | Except.error e => Except.error e
      | Except.ok llm =>
          match setup_credentials env with
          | Except.error e => Except.error e
          | Except.ok env2 =>
              Except.ok (pipeline llm template last.content, env2)

/-! ## `src/run.py` -/

/-- `copilot_qna` (run.py lines 48-62): calls the supplied
chat-completion function with the single-element conversation
`[{"role": "user", "content": question}]`, then reads
`result['choices'][0]`, `response["message"]["content"]` and
`response["context"]` (each subscript can raise), and returns the
record `{"question": ..., "answer": ..., "context": ...}`.  The
chat-completion function is abstracted as a function from the message
list to a JSON result (or an exception, which propagates). -/
def copilot_qna (question : String)
    (chat_completion_fn : List Message → Except Err Json) :
    Except Err Json :=
  match chat_completion_fn [⟨"user", question⟩] with
  | Except.error e => Except.error e
  | Except.ok result =>
  match result.index "choices" with
  | Except.error e => Except.error e
  | Except.ok choices =>
  match choices.indexNat 0 with
  | Except.error e => Except.error e
  | Except.ok response =>
  match response.index "message" with
  | Except.error e => Except.error e
  | Except.ok message =>
  match message.index "content" with
  | Except.error e => Except.error e
  | Except.ok answer =>
  match response.index "context" with
  | Except.error e => Except.error e
  | Except.ok ctx =>
      Except.ok (Json.obj
        [("question", Json.str question), ("answer", answer), ("context", ctx)])

/-- `load_jsonl` (run.py lines 65-67): parses each line of the file in
order with `json.loads` (abstracted as the `loads` parameter, since it
is Python standard-library code); the first parse failure propagates.
The file's content is modelled as its list of lines. -/
def load_jsonl (loads : String → Except Err Json) :
    List String → Except Err (List Json)
  | [] => Except.ok []
  | line :: rest =>
      match loads line with
      | Except.error e => Except.error e
      | Except.ok j =>
          match load_jsonl loads rest with
          | Except.error e => Except.error e
          | Except.ok js => Except.ok (j :: js)

/-- The four backend implementations named by the `--implementation`
dispatch (run.py lines 137-145). -/
inductive Backend where
  | promptflow : Backend
  | semantickernel : Backend
  | langchain : Backend
  | aisdk : Backend
deriving Repr, DecidableEq

/-- The closed set of recognised `--implementation` values. -/
def backendNames : List String :=
  ["promptflow", "semantickernel", "langchain", "aisdk"]

/-- The `--implementation` dispatch (run.py lines 137-145): the guard
`if args.implementation:` skips an empty string, and the `elif` chain
imports a `chat_completion` for exactly the four known names.  Any
other value leaves the name `chat_completion` unbound, modelled as
`none`. -/
def selectBackend (impl : String) : Option Backend :=
  if impl = "" then none
  else if impl = "promptflow" then some Backend.promptflow
  else if impl = "semantickernel" then some Backend.semantickernel
  else if impl = "langchain" then some Backend.langchain
  else if impl = "aisdk" then some Backend.aisdk
  else none

/-- A parsed command-line argument value: argparse stores strings for
string-typed options, but `action='store_true'` options store a
boolean. -/
inductive ArgVal where
  | str (s : String) : ArgVal
  | bool (b : Bool) : ArgVal
deriving Repr, DecidableEq

/-- The parsed command-line arguments of run.py (lines 127-134). -/
structure Args where
  question : Option String
  implementation : String
  deploy : Bool
  evaluate : Bool
  dataset_path : ArgVal
  deployment_name : Option String
  build_index : Bool
deriving Repr

/-- The default value argparse gives `--dataset-path` when the flag is
absent (run.py line 132). -/
def datasetPathDefault : ArgVal := ArgVal.str "src/tests/evaluation_dataset.jsonl"

/-- argparse's handling of `--dataset-path` (run.py line 132): the
option is declared with `action='store_true'`, so when the flag is
absent on the command line `args.dataset_path` is the string default,
but when the flag is supplied argparse stores the constant `True` —
a boolean, not a path. -/
def parseDatasetPath (supplied : Bool) : ArgVal :=
  if supplied then ArgVal.bool true else datasetPathDefault

/-- The sample question used when `--question` is absent (run.py line 159). -/
def defaultQuestion : String := "which tent is the most waterproof?"

/-- `question = "..."; if args.question: question = args.question`
(run.py lines 159-161): an empty `--question` is falsy and keeps the
default. -/
def chooseQuestion (q : Option String) : String :=
  match q with
  | none => defaultQuestion
  | some s => if s = "" then defaultQuestion else s

/-- What a run of the `__main__` block did, with the hosted-service
calls (index build, evaluation run, deployment, chat call) abstracted
as succeeding and recorded with the data the script hands them. -/
inductive MainOutcome where
  | builtIndex : MainOutcome
  | evaluated (backend : Backend) (datasetPath : String) : MainOutcome
  | answered (backend : Backend) (question : String) : MainOutcome
deriving Repr, DecidableEq

/-- The command dispatch of the `__main__` block (run.py lines
147-166), after argument parsing and the implementation dispatch.
`--build-index` runs without touching a chat backend.  `--evaluate`
evaluates the expression `run_evaluation(chat_completion, ...)`: when
the implementation dispatch bound no backend this raises
`NameError: chat_completion`; otherwise `run_evaluation` first
computes `pathlib.Path.cwd() / dataset_path`, which raises `TypeError`
when `args.dataset_path` is the boolean stored by its `store_true`
action rather than a string.  `--deploy` calls `deploy_flow`, whose
body references the undefined names `Deployment` and `LocalModel`, so
it raises `NameError: Deployment`.  The default command answers a
single question through `chat_completion`, raising
`NameError: chat_completion` when no backend was bound. -/
def mainDispatch (args : Args) : Except Err MainOutcome :=
  let chat := selectBackend args.implementation
  if args.build_index then Except.ok MainOutcome.builtIndex
  else if args.evaluate then
    match chat with
    | none => Except.error (Err.nameError "chat_completion")
    | some b =>
        match args.dataset_path with
        | ArgVal.str s => Except.ok (MainOutcome.evaluated b s)
        | ArgVal.bool _ => Except.error Err.typeError
  else if args.deploy then Except.error (Err.nameError "Deployment")
  else
    match chat with
    | none => Except.error (Err.nameError "chat_completion")
    | some b => Except.ok (MainOutcome.answered b (chooseQuestion args.question))

/-! ## Helper lemmas -/

/-- `Env.getItem` either succeeds or raises a `KeyError` for the
requested key; it never raises any other exception. -/
theorem Env.getItem_ok_or_keyError (e : Env) (k : String) :
    (∃ v, e.getItem k = Except.ok v) ∨ e.getItem k = Except.error (Err.keyError k) := by
  unfold Env.getItem
  cases e.get? k with
  | none => exact Or.inr rfl
  | some v => exact Or.inl ⟨v, rfl⟩

/-- Reading `os.environ[k]` succeeds exactly on the value `os.environ.get(k)`. -/
theorem Env.getItem_ok_iff (e : Env) (k v : String) :
    e.getItem k = Except.ok v ↔ e.get? k = some v := by
  unfold Env.getItem
  cases e.get? k <;> simp

/-- `buildLLM` can only fail with a `KeyError`. -/
theorem buildLLM_error_is_keyError (env : Env) (context : List (String × Json))
    (e : Err) (h : buildLLM env context = Except.error e) : ∃ k, e = Err.keyError k := by
  unfold buildLLM at h
  rcases Env.getItem_ok_or_keyError env "AZURE_OPENAI_CHAT_DEPLOYMENT" with ⟨v1, h1⟩ | h1 <;>
    rw [h1] at h
  · rcases Env.getItem_ok_or_keyError env "AZURE_OPENAI_CHAT_MODEL" with ⟨v2, h2⟩ | h2 <;>
      rw [h2] at h
    · simp at h
    · simp at h
      exact ⟨_, h.symm⟩
  · simp at h
    exact ⟨_, h.symm⟩

/-- `setup_credentials` can only fail with a `KeyError`. -/
theorem setup_credentials_error_is_keyError (env : Env)
    (e : Err) (h : setup_credentials env = Except.error e) : ∃ k, e = Err.keyError k := by
  unfold setup_credentials at h
  rcases Env.getItem_ok_or_keyError env "OPENAI_API_TYPE" with ⟨v1, h1⟩ | h1 <;>
    rw [h1] at h
  case inr =>
    simp at h
    exact ⟨_, h.symm⟩
  rcases Env.getItem_ok_or_keyError env "OPENAI_API_KEY" with ⟨v2, h2⟩ | h2 <;>
    rw [h2] at h
  case inr =>
    simp at h
    exact ⟨_, h.symm⟩
  rcases Env.getItem_ok_or_keyError env "OPENAI_API_VERSION" with ⟨v3, h3⟩ | h3 <;>
    rw [h3] at h
  case inr =>
    simp at h
    exact ⟨_, h.symm⟩
  rcases Env.getItem_ok_or_keyError env "OPENAI_API_BASE" with ⟨v4, h4⟩ | h4 <;>
    rw [h4] at h
  case inr =>
    simp at h
    exact ⟨_, h.symm⟩
  rcases Env.getItem_ok_or_keyError env "AZURE_AI_SEARCH_ENDPOINT" with ⟨v5, h5⟩ | h5 <;>
    rw [h5] at h
  case inr =>
    simp at h
    exact ⟨_, h.symm⟩
  rcases Env.getItem_ok_or_keyError (env.set "AZURE_COGNITIVE_SEARCH_TARGET" v5)
      "AZURE_AI_SEARCH_KEY" with ⟨v6, h6⟩ | h6 <;> simp only at h <;> rw [h6] at h
  · simp at h
  · simp at h
    exact ⟨_, h.symm⟩

/-- When `setup_credentials` succeeds, the final environment is the
input environment with the two cognitive-search variables copied from
the two AI-search variables. -/
theorem setup_credentials_ok_shape (env env' : Env)
    (h : setup_credentials env = Except.ok env') :
    ∃ target key,
      env.get? "AZURE_AI_SEARCH_ENDPOINT" = some target ∧
      env.get? "AZURE_AI_SEARCH_KEY" = some key ∧
      env' = (env.set "AZURE_COGNITIVE_SEARCH_TARGET" target).set
        "AZURE_COGNITIVE_SEARCH_KEY" key := by
  unfold setup_credentials at h
  rcases Env.getItem_ok_or_keyError env "OPENAI_API_TYPE" with ⟨v1, h1⟩ | h1 <;>
    rw [h1] at h
  case inr => simp at h
  rcases Env.getItem_ok_or_keyError env "OPENAI_API_KEY" with ⟨v2, h2⟩ | h2 <;>
    rw [h2] at h
  case inr => simp at h
  rcases Env.getItem_ok_or_keyError env "OPENAI_API_VERSION" with ⟨v3, h3⟩ | h3 <;>
    rw [h3] at h
  case inr => simp at h
  rcases Env.getItem_ok_or_keyError env "OPENAI_API_BASE" with ⟨v4, h4⟩ | h4 <;>
    rw [h4] at h
  case inr => simp at h
  rcases Env.getItem_ok_or_keyError env "AZURE_AI_SEARCH_ENDPOINT" with ⟨v5, h5⟩ | h5 <;>
    rw [h5] at h
  case inr => simp at h
  rcases Env.getItem_ok_or_keyError (env.set "AZURE_COGNITIVE_SEARCH_TARGET" v5)
      "AZURE_AI_SEARCH_KEY" with ⟨v6, h6⟩ | h6 <;> simp only at h <;> rw [h6] at h
  · refine ⟨v5, v6, (Env.getItem_ok_iff env _ v5).mp h5, ?_, ?_⟩
    · rw [← Env.get_set_other env "AZURE_COGNITIVE_SEARCH_TARGET" v5 "AZURE_AI_SEARCH_KEY"
        (by decide)]
      exact (Env.getItem_ok_iff _ _ v6).mp h6
    · simpa using h.symm
  · simp at h

/-! ## Concrete fixtures used by witnesses -/

/-- A concrete environment carrying every variable the chat call reads. -/
def envFull : Env :=
  [("OPENAI_API_TYPE", "azure"), ("OPENAI_API_KEY", "sk-test"),
   ("OPENAI_API_VERSION", "2023-05-15"), ("OPENAI_API_BASE", "https://aoai.example"),
   ("AZURE_AI_SEARCH_ENDPOINT", "https://search.example"),
   ("AZURE_AI_SEARCH_KEY", "search-key"),
   ("AZURE_OPENAI_CHAT_DEPLOYMENT", "gpt-35-turbo-deploy"),
   ("AZURE_OPENAI_CHAT_MODEL", "gpt-35-turbo")]

/-- A pipeline that echoes the question it was handed. -/
def echoPipeline : LLMConfig → String → String → String := fun _ _ q => q

/-! ## Claims -/

/-- C4: for every non-empty `messages` list, the question `chat_completion`
submits to the retrieval-augmented pipeline is exactly the `content`
field of the last message: the call's entire result is the pipeline's
answer on `m.content` where `m` is the last message, so earlier
messages (and even the last message's role) have no effect. -/
theorem chat_completion_submits_last_content
    (pipeline : LLMConfig → String → String → String)
    (messages : List Message) (m : Message) (stream : Bool)
    (session_state : Option Json) (context : List (String × Json)) (env : Env)
    (h : messages.getLast? = some m) :
    chat_completion pipeline messages stream session_state context env =
      match buildLLM env context with
      | Except.error e => Except.error e
      | Except.ok llm =>
          match setup_credentials env with
          | Except.error e => Except.error e
          | Except.ok env2 => Except.ok (pipeline llm template m.content, env2) := by
  unfold chat_completion
  rw [h]

/-- Witness for C4 at a two-message conversation: the earlier system
message is ignored and the echoed question is the last message's content. -/
theorem chat_completion_submits_last_content_witness :
    ([⟨"system", "be helpful"⟩, ⟨"user", "which tent is best?"⟩] : List Message).getLast?
        = some ⟨"user", "which tent is best?"⟩ ∧
      chat_completion echoPipeline
        [⟨"system", "be helpful"⟩, ⟨"user", "which tent is best?"⟩]
        false none [] envFull =
        Except.ok ("which tent is best?",
          envFull ++ [("AZURE_COGNITIVE_SEARCH_TARGET", "https://search.example"),
            ("AZURE_COGNITIVE_SEARCH_KEY", "search-key")]) :=
  ⟨rfl, chat_completion_submits_last_content echoPipeline
    [⟨"system", "be helpful"⟩, ⟨"user", "which tent is best?"⟩]
    ⟨"user", "which tent is best?"⟩ false none [] envFull rfl⟩

/-- C5: the `stream` flag is accepted but never read, so two calls to
`chat_completion` that agree on everything except `stream` return
identical results (same answer, same final environment, same errors). -/
theorem chat_completion_stream_no_effect
    (pipeline : LLMConfig → String → String → String)
    (messages : List Message) (session_state : Option Json)
    (context : List (String × Json)) (env : Env) :
    chat_completion pipeline messages true session_state context env =
      chat_completion pipeline messages false session_state context env := rfl

/-- C7: on an empty conversation `messages[-1]` raises `IndexError`,
which propagates to the caller; on any non-empty conversation the read
of the last message is in bounds, so the call can never fail with
`IndexError` (the only other failures are environment `KeyError`s). -/
theorem chat_completion_empty_vs_nonempty
    (pipeline : LLMConfig → String → String → String) (stream : Bool)
    (session_state : Option Json) (context : List (String × Json)) (env : Env) :
    chat_completion pipeline [] stream session_state context env =
        Except.error Err.indexError ∧
      ∀ messages : List Message, messages ≠ [] →
        chat_completion pipeline messages stream session_state context env ≠
          Except.error Err.indexError := by
  constructor
  · rfl
  · intro messages hne
    obtain ⟨m, hm⟩ : ∃ m, messages.getLast? = some m := by
      cases hg : messages.getLast? with
      | none => exact absurd (List.getLast?_eq_none_iff.mp hg) hne
      | some m => exact ⟨m, rfl⟩
    unfold chat_completion
    rw [hm]
    cases hb : buildLLM env context with
    | error e =>
        obtain ⟨k, hk⟩ := buildLLM_error_is_keyError env context e hb
        simp [hk]
    | ok llm =>
        cases hs : setup_credentials env with
        | error e =>
            obtain ⟨k, hk⟩ := setup_credentials_error_is_keyError env e hs
            simp [hk]
        | ok env2 => simp

/-- Witness for C7: a concrete one-message conversation does not raise
`IndexError`. -/
theorem chat_completion_empty_vs_nonempty_witness :
    ([(⟨"user", "hello"⟩ : Message)] ≠ ([] : List Message)) ∧
      chat_completion echoPipeline [⟨"user", "hello"⟩] false none [] envFull ≠
        Except.error Err.indexError :=
  ⟨by simp,
    (chat_completion_empty_vs_nonempty echoPipeline false none [] envFull).2
      [⟨"user", "hello"⟩] (by simp)⟩

/-- C9: a successful `chat_completion` call mutates the process
environment exactly as `setup_credentials` prescribes: afterwards
`AZURE_COGNITIVE_SEARCH_TARGET` holds the value of
`AZURE_AI_SEARCH_ENDPOINT` and `AZURE_COGNITIVE_SEARCH_KEY` holds the
value of `AZURE_AI_SEARCH_KEY`, and every other environment variable
is unchanged. -/
theorem chat_completion_env_mutation
    (pipeline : LLMConfig → String → String → String)
    (messages : List Message) (stream : Bool) (session_state : Option Json)
    (context : List (String × Json)) (env : Env) (ans : String) (env' : Env)
    (h : chat_completion pipeline messages stream session_state context env =
      Except.ok (ans, env')) :
    env'.get? "AZURE_COGNITIVE_SEARCH_TARGET" = env.get? "AZURE_AI_SEARCH_ENDPOINT" ∧
      env'.get? "AZURE_COGNITIVE_SEARCH_KEY" = env.get? "AZURE_AI_SEARCH_KEY" ∧
      ∀ k : String, k ≠ "AZURE_COGNITIVE_SEARCH_TARGET" →
        k ≠ "AZURE_COGNITIVE_SEARCH_KEY" → env'.get? k = env.get? k := by
  have hsc : setup_credentials env = Except.ok env' := by
    unfold chat_completion at h
    cases hl : messages.getLast? <;> rw [hl] at h
    · simp at h
    · cases hb : buildLLM env context <;> rw [hb] at h
      · simp at h
      · cases hs : setup_credentials env <;> rw [hs] at h
        · simp at h
        · simp at h
          rw [h.2]
  obtain ⟨target, key, htarget, hkey, henv⟩ := setup_credentials_ok_shape env env' hsc
  subst henv
  refine ⟨?_, ?_, ?_⟩
  · rw [Env.get_set_other _ _ _ _ (by decide), Env.get_set_self, htarget]
  · rw [Env.get_set_self, hkey]
  · intro k hk1 hk2
    rw [Env.get_set_other _ _ _ _ hk2, Env.get_set_other _ _ _ _ hk1]

/-- Witness for C9 at a concrete environment: the call succeeds and the
two cognitive-search variables are copied while another variable is
untouched. -/
theorem chat_completion_env_mutation_witness :
    chat_completion echoPipeline [⟨"user", "hi"⟩] false none [] envFull =
        Except.ok ("hi",
          envFull ++ [("AZURE_COGNITIVE_SEARCH_TARGET", "https://search.example"),
            ("AZURE_COGNITIVE_SEARCH_KEY", "search-key")]) ∧
      (envFull ++ [("AZURE_COGNITIVE_SEARCH_TARGET", "https://search.example"),
          ("AZURE_COGNITIVE_SEARCH_KEY", "search-key")] : Env).get?
          "AZURE_COGNITIVE_SEARCH_TARGET" = envFull.get? "AZURE_AI_SEARCH_ENDPOINT" ∧
      (envFull ++ [("AZURE_COGNITIVE_SEARCH_TARGET", "https://search.example"),
          ("AZURE_COGNITIVE_SEARCH_KEY", "search-key")] : Env).get?
          "AZURE_COGNITIVE_SEARCH_KEY" = envFull.get? "AZURE_AI_SEARCH_KEY" ∧
      ∀ k : String, k ≠ "AZURE_COGNITIVE_SEARCH_TARGET" →
        k ≠ "AZURE_COGNITIVE_SEARCH_KEY" →
        (envFull ++ [("AZURE_COGNITIVE_SEARCH_TARGET", "https://search.example"),
          ("AZURE_COGNITIVE_SEARCH_KEY", "search-key")] : Env).get? k =
          envFull.get? k :=
  ⟨rfl, chat_completion_env_mutation echoPipeline [⟨"user", "hi"⟩] false none []
    envFull "hi"
    (envFull ++ [("AZURE_COGNITIVE_SEARCH_TARGET", "https://search.example"),
      ("AZURE_COGNITIVE_SEARCH_KEY", "search-key")]) rfl⟩

/-- C10: `copilot_qna` consults the supplied chat-completion function
only at the single-element conversation `[{"role": "user",
"content": question}]`: any two functions that agree on that one input
give identical `copilot_qna` results, so no system or assistant
message and no prior history is ever passed. -/
theorem copilot_qna_single_user_message (question : String)
    (fn fn' : List Message → Except Err Json)
    (h : fn [⟨"user", question⟩] = fn' [⟨"user", question⟩]) :
    copilot_qna question fn = copilot_qna question fn' := by
  unfold copilot_qna
  rw [h]

/-- Witness for C10: two chat functions that differ everywhere except
on the one-element user conversation yield the same record. -/
theorem copilot_qna_single_user_message_witness :
    (fun ms : List Message =>
        if ms.length = 1 then Except.ok (Json.str "same") else Except.error Err.typeError)
          [(⟨"user", "hi"⟩ : Message)] =
      (fun _ : List Message => Except.ok (Json.str "same")) [(⟨"user", "hi"⟩ : Message)] ∧
      copilot_qna "hi" (fun ms : List Message =>
          if ms.length = 1 then Except.ok (Json.str "same") else Except.error Err.typeError) =
        copilot_qna "hi" (fun _ : List Message => Except.ok (Json.str "same")) :=
  ⟨rfl, copilot_qna_single_user_message "hi" _ _ rfl⟩

/-- C8: the chat model built inside `chat_completion` is configured
with temperature `0.7` whenever the `context` mapping has no
`temperature` key, and with the mapping's value whenever the key is
present, via `context.get('temperature', 0.7)`. -/
theorem buildLLM_temperature (env : Env) (context : List (String × Json))
    (dep mdl : String)
    (hdep : env.get? "AZURE_OPENAI_CHAT_DEPLOYMENT" = some dep)
    (hmdl : env.get? "AZURE_OPENAI_CHAT_MODEL" = some mdl) :
    (ctxGet context "temperature" = none →
        buildLLM env context = Except.ok ⟨dep, mdl, Json.num (7 / 10)⟩) ∧
      ∀ v : Json, ctxGet context "temperature" = some v →
        buildLLM env context = Except.ok ⟨dep, mdl, v⟩ := by
  have hdep' : env.getItem "AZURE_OPENAI_CHAT_DEPLOYMENT" = Except.ok dep :=
    (Env.getItem_ok_iff env _ dep).mpr hdep
  have hmdl' : env.getItem "AZURE_OPENAI_CHAT_MODEL" = Except.ok mdl :=
    (Env.getItem_ok_iff env _ mdl).mpr hmdl
  constructor
  · intro hnone
    unfold buildLLM
    rw [hdep', hmdl', hnone]
    rfl
  · intro v hv
    unfold buildLLM
    rw [hdep', hmdl', hv]
    rfl

/-- Witness for C8: with no `temperature` in the context the
configuration carries `0.7`; with an explicit `temperature` of `0.2`
it carries `0.2`. -/
theorem buildLLM_temperature_witness :
    envFull.get? "AZURE_OPENAI_CHAT_DEPLOYMENT" = some "gpt-35-turbo-deploy" ∧
      ctxGet [] "temperature" = none ∧
      buildLLM envFull [] =
        Except.ok ⟨"gpt-35-turbo-deploy", "gpt-35-turbo", Json.num (7 / 10)⟩ ∧
      ctxGet [("temperature", Json.num (1 / 5))] "temperature" = some (Json.num (1 / 5)) ∧
      buildLLM envFull [("temperature", Json.num (1 / 5))] =
        Except.ok ⟨"gpt-35-turbo-deploy", "gpt-35-turbo", Json.num (1 / 5)⟩ :=
  ⟨rfl, rfl,
    (buildLLM_temperature envFull [] "gpt-35-turbo-deploy" "gpt-35-turbo" rfl rfl).1 rfl,
    rfl,
    (buildLLM_temperature envFull [("temperature", Json.num (1 / 5))]
      "gpt-35-turbo-deploy" "gpt-35-turbo" rfl rfl).2 (Json.num (1 / 5)) rfl⟩

/-- C6: when every line of the file parses as a JSON value,
`load_jsonl` succeeds and returns exactly one record per line, in file
order (`Forall₂` pairs the i-th line with the i-th record); in
particular, on a dataset whose lines all parse to records carrying the
`question` and `truth` fields consumed by the evaluator, every
returned record carries both fields. -/
theorem load_jsonl_line_by_line (loads : String → Except Err Json)
    (lines : List String) (h : ∀ l ∈ lines, ∃ j, loads l = Except.ok j) :
    ∃ recs : List Json,
      load_jsonl loads lines = Except.ok recs ∧
      recs.length = lines.length ∧
      List.Forall₂ (fun l r => loads l = Except.ok r) lines recs ∧
      ((∀ l ∈ lines, ∀ j : Json, loads l = Except.ok j →
          j.hasKey "question" = true ∧ j.hasKey "truth" = true) →
        ∀ r ∈ recs, r.hasKey "question" = true ∧ r.hasKey "truth" = true) := by
  induction lines with
  | nil =>
      exact ⟨[], rfl, rfl, List.Forall₂.nil, fun _ r hr => absurd hr (List.not_mem_nil r)⟩
  | cons line rest ih =>
      obtain ⟨j, hj⟩ := h line (List.mem_cons_self line rest)
      obtain ⟨recs, hrecs, hlen, hall, hfields⟩ :=
        ih (fun l hl => h l (List.mem_cons_of_mem line hl))
      refine ⟨j :: recs, ?_, by simpa using hlen, List.Forall₂.cons hj hall, ?_⟩
      · unfold load_jsonl
        rw [hj, hrecs]
      · intro hf r hr
        rcases List.mem_cons.mp hr with hr1 | hr2
        · subst hr1
          exact hf line (List.mem_cons_self line rest) r hj
        · exact hfields
            (fun l hl jj hjj => hf l (List.mem_cons_of_mem line hl) jj hjj) r hr2

/-- A parse function standing in for `json.loads` on a two-line
evaluation dataset: each line holds a record with `question` and
`truth` fields. -/
def loadsSample : String → Except Err Json := fun s =>
  Except.ok (Json.obj [("question", Json.str s), ("truth", Json.str s)])

/-- Witness for C6 on a concrete two-line dataset. -/
theorem load_jsonl_line_by_line_witness :
    (∀ l ∈ ["line one", "line two"], ∃ j, loadsSample l = Except.ok j) ∧
      ∃ recs : List Json,
        load_jsonl loadsSample ["line one", "line two"] = Except.ok recs ∧
        recs.length = (["line one", "line two"] : List String).length ∧
        List.Forall₂ (fun l r => loadsSample l = Except.ok r)
          ["line one", "line two"] recs ∧
        ((∀ l ∈ ["line one", "line two"], ∀ j : Json, loadsSample l = Except.ok j →
            j.hasKey "question" = true ∧ j.hasKey "truth" = true) →
          ∀ r ∈ recs, r.hasKey "question" = true ∧ r.hasKey "truth" = true) :=
  ⟨fun l _ => ⟨_, rfl⟩,
    load_jsonl_line_by_line loadsSample ["line one", "line two"] (fun l _ => ⟨_, rfl⟩)⟩

/-- A chat-completion function returning a well-formed OpenAI-style
response whose generated message content is the empty string. -/
def emptyAnswerFn : List Message → Except Err Json := fun _ =>
  Except.ok (Json.obj [("choices", Json.arr [Json.obj
    [("message", Json.obj [("content", Json.str "")]),
     ("context", Json.obj [("citations", Json.arr [])])]])])

/-- C1 counterexample: `copilot_qna` does not guarantee a non-empty
answer.  With a chat-completion function whose (well-formed) response
carries an empty `content`, the returned record's `answer` field is
the empty string. -/
theorem copilot_qna_empty_answer :
    copilot_qna "which tent is the most waterproof?" emptyAnswerFn =
      Except.ok (Json.obj
        [("question", Json.str "which tent is the most waterproof?"),
         ("answer", Json.str ""),
         ("context", Json.obj [("citations", Json.arr [])])]) := rfl

/-- C1 (amended): for every question `q` and chat-completion function
`fn` whose result is a response from which `choices[0]`,
`choices[0]["message"]["content"]` and `choices[0]["context"]` can be
extracted, `copilot_qna q fn` returns the record whose `question`
field is `q`, whose `answer` field is exactly that extracted content
(possibly empty), and whose `context` field is exactly that extracted
context data. -/
theorem copilot_qna_wellformed_response (q : String)
    (fn : List Message → Except Err Json) (resp choice ans ctxv : Json)
    (hfn : fn [⟨"user", q⟩] = Except.ok resp)
    (hchoice : (resp.index "choices").bind (fun cs => cs.indexNat 0) = Except.ok choice)
    (hans : (choice.index "message").bind (fun m => m.index "content") = Except.ok ans)
    (hctx : choice.index "context" = Except.ok ctxv) :
    copilot_qna q fn = Except.ok (Json.obj
      [("question", Json.str q), ("answer", ans), ("context", ctxv)]) := by
  unfold copilot_qna
  rw [hfn]
  cases hc : resp.index "choices" with
  | error e => rw [hc] at hchoice; simp [Except.bind] at hchoice
  | ok choices =>
      rw [hc] at hchoice
      simp only [Except.bind] at hchoice
      simp only [hc, hchoice]
      cases hm : choice.index "message" with
      | error e => rw [hm] at hans; simp [Except.bind] at hans
      | ok message =>
          rw [hm] at hans
          simp only [Except.bind] at hans
          simp only [hm, hans, hctx]

/-- A chat-completion function returning a well-formed OpenAI-style
response with a non-empty answer and citation context. -/
def alpineAnswerFn : List Message → Except Err Json := fun _ =>
  Except.ok (Json.obj [("choices", Json.arr [Json.obj
    [("message", Json.obj [("content", Json.str "The Alpine Explorer tent.")]),
     ("context", Json.obj [("citations", Json.arr [Json.str "catalog.md"])])]])])

/-- Witness for the amended C1 at a concrete well-formed response. -/
theorem copilot_qna_wellformed_response_witness :
    alpineAnswerFn [(⟨"user", "which tent is the most waterproof?"⟩ : Message)] =
      Except.ok (Json.obj [("choices", Json.arr [Json.obj
        [("message", Json.obj [("content", Json.str "The Alpine Explorer tent.")]),
         ("context", Json.obj [("citations", Json.arr [Json.str "catalog.md"])])]])]) ∧
      copilot_qna "which tent is the most waterproof?" alpineAnswerFn =
        Except.ok (Json.obj
          [("question", Json.str "which tent is the most waterproof?"),
           ("answer", Json.str "The Alpine Explorer tent."),
           ("context", Json.obj [("citations", Json.arr [Json.str "catalog.md"])])]) :=
  ⟨rfl, copilot_qna_wellformed_response "which tent is the most waterproof?" alpineAnswerFn
    (Json.obj [("choices", Json.arr [Json.obj
      [("message", Json.obj [("content", Json.str "The Alpine Explorer tent.")]),
       ("context", Json.obj [("citations", Json.arr [Json.str "catalog.md"])])]])])
    (Json.obj
      [("message", Json.obj [("content", Json.str "The Alpine Explorer tent.")]),
       ("context", Json.obj [("citations", Json.arr [Json.str "catalog.md"])])])
    (Json.str "The Alpine Explorer tent.")
    (Json.obj [("citations", Json.arr [Json.str "catalog.md"])])
    rfl rfl rfl rfl⟩

/-- The parsed arguments for `--implementation fancynewimpl --build-index`. -/
def argsUnknownBuildIndex : Args :=
  { question := none, implementation := "fancynewimpl", deploy := false,
    evaluate := false, dataset_path := datasetPathDefault,
    deployment_name := none, build_index := true }

/-- C2 counterexample: with an unknown `--implementation` value and
`--build-index`, the run does not fail at all — the dispatcher silently
proceeds and the index build completes, because the implementation
dispatch binds nothing and the `--build-index` command never touches a
chat backend. -/
theorem mainDispatch_unknown_impl_proceeds :
    "fancynewimpl" ∉ backendNames ∧
      mainDispatch argsUnknownBuildIndex = Except.ok MainOutcome.builtIndex :=
  ⟨by decide, rfl⟩

/-- C2 (amended): an unknown `--implementation` value never defaults to
another backend — the dispatch binds no backend at all — and on the
commands that actually invoke the chat backend (`--evaluate` and the
default ask-a-question command) the run fails deterministically with
`NameError: chat_completion`; only commands that never touch a backend
(such as `--build-index`) proceed. -/
theorem mainDispatch_unknown_impl_no_default (args : Args)
    (h : args.implementation ∉ backendNames) :
    selectBackend args.implementation = none ∧
      (args.build_index = false → args.evaluate = true →
        mainDispatch args = Except.error (Err.nameError "chat_completion")) ∧
      (args.build_index = false → args.evaluate = false → args.deploy = false →
        mainDispatch args = Except.error (Err.nameError "chat_completion")) := by
  simp only [backendNames, List.mem_cons, List.not_mem_nil, or_false, not_or] at h
  obtain ⟨h1, h2, h3, h4⟩ := h
  have hsel : selectBackend args.implementation = none := by
    unfold selectBackend
    by_cases h0 : args.implementation = ""
    · simp [h0]
    · simp [h0, h1, h2, h3, h4]
  refine ⟨hsel, ?_, ?_⟩
  · intro hbi hev
    unfold mainDispatch
    simp [hbi, hev, hsel]
  · intro hbi hev hdep
    unfold mainDispatch
    simp [hbi, hev, hdep, hsel]

/-- The parsed arguments for `--implementation fancynewimpl --evaluate`. -/
def argsUnknownEvaluate : Args :=
  { question := none, implementation := "fancynewimpl", deploy := false,
    evaluate := true, dataset_path := datasetPathDefault,
    deployment_name := none, build_index := false }

/-- Witness for the amended C2: an unknown implementation together with
`--evaluate` fails with `NameError: chat_completion`. -/
theorem mainDispatch_unknown_impl_no_default_witness :
    "fancynewimpl" ∉ backendNames ∧
      mainDispatch argsUnknownEvaluate = Except.error (Err.nameError "chat_completion") :=
  ⟨by decide,
    (mainDispatch_unknown_impl_no_default argsUnknownEvaluate (by decide)).2.1 rfl rfl⟩

/-- The parsed arguments for
`--implementation langchain --evaluate --dataset-path` (the
`--dataset-path` flag supplied, so argparse stores `True`). -/
def argsEvaluateFlagged : Args :=
  { question := none, implementation := "langchain", deploy := false,
    evaluate := true, dataset_path := parseDatasetPath true,
    deployment_name := none, build_index := false }

/-- The parsed arguments for `--implementation langchain --evaluate`
(the `--dataset-path` flag absent, so the bundled default applies). -/
def argsEvaluateDefault : Args :=
  { question := none, implementation := "langchain", deploy := false,
    evaluate := true, dataset_path := parseDatasetPath false,
    deployment_name := none, build_index := false }

/-- C3: `--dataset-path` is declared with `action='store_true'`.  When
the flag is absent, the evaluation run is handed the bundled JSONL
string path `src/tests/evaluation_dataset.jsonl`; but when the flag is
supplied, argparse stores the boolean `True` instead of a path, and
`run_evaluation` fails with a `TypeError` at
`pathlib.Path.cwd() / dataset_path` — the supplied case contradicts
the claim, matching the spec's own note that the boolean declaration
is a defect. -/
theorem datasetPath_store_true_defect :
    parseDatasetPath false = ArgVal.str "src/tests/evaluation_dataset.jsonl" ∧
      mainDispatch argsEvaluateDefault =
        Except.ok (MainOutcome.evaluated Backend.langchain
          "src/tests/evaluation_dataset.jsonl") ∧
      parseDatasetPath true = ArgVal.bool true ∧
      mainDispatch argsEvaluateFlagged = Except.error Err.typeError :=
  ⟨rfl, rfl, rfl, rfl⟩
